import Mathlib

/-!
Verification of the persisted-queries middleware (express-graphql-persisted-queries).

The definitions below are a shallow embedding of the repository's source:

* `src/getPersistedQuery.ts` — `getPersistedQuery`
* `src/index.ts` — `persistedQueries` / `persistedQueriesMiddleware`
* `src/parseOptions.ts` — `parseOptions`
* `src/parseRequestBodyIfNecessary.ts` — `parseRequestBodyIfNecessary`
* `src/ebp/readRawBody.ts` — `readRawBody` (byte-accurate size enforcement via
  `getStream.buffer`, get-stream v6 semantics)
* `src/ebp/parseOptions.ts` — `parseOptionsEbp` (body-parser `maxSize` option)
* `src/ebp/parseJsonObject.ts` — `parseJsonObject`
* `src/sendJson.ts` — `sendJson`
* `src/typeguards.ts` — `isObject`, `isString`, `isFunction`, `nonNull`

JavaScript values are modelled by `JSValue`; objects carry their own
(enumerable, insertion-ordered) properties plus a prototype-chain property
list, so that own-property lookup and full member access can be
distinguished.  Thrown errors are modelled by `JSErr` (an `http-errors`
error carries `statusCode = some s`; a plain `Error`/`TypeError` carries
`none`).  Node/npm externals (zlib, `Buffer.toString`, `JSON.parse`,
`querystring.parse`, the `content-type` parser) are parameters of the model
(`Externals`); all theorems quantify over them.
-/

/-- JavaScript runtime errors as observed by the middleware: `http-errors`
errors carry a status code, plain errors do not. `httpError s m` models
`httpError(s, m)`. -/
structure JSErr where
  statusCode : Option Nat
  message : String
deriving DecidableEq, Repr

/-- Model of `httpError(statusCode, message)` from the `http-errors` package. -/
def httpError (s : Nat) (m : String) : JSErr := ⟨some s, m⟩

/-- JavaScript values manipulated by the middleware. `vObj own proto` is an
object with own enumerable properties `own` (insertion order) and inherited
properties `proto` (flattened prototype chain). `vFunc` is a function value;
its result models `await f(x)`: `Except.error` is a throw/rejection. -/
inductive JSValue where
  | vNull
  | vUndefined
  | vBool (b : Bool)
  | vNum (n : Int)
  | vStr (s : String)
  | vObj (own : List (String × JSValue)) (proto : List (String × JSValue))
  | vFunc (f : String → Except JSErr JSValue)

open JSValue

/-- Association-list lookup (first match), modelling property tables. -/
def lookupAssoc (l : List (String × JSValue)) (k : String) : Option JSValue :=
  match l with
  | [] => none
  | (k', v) :: rest => if k' = k then some v else lookupAssoc rest k

/-- Association-list update: JS property assignment `obj[k] = v` updates the
existing own property in place, otherwise appends a new one. -/
def setAssoc (l : List (String × JSValue)) (k : String) (v : JSValue) :
    List (String × JSValue) :=
  match l with
  | [] => [(k, v)]
  | (k', v') :: rest =>
    if k' = k then (k', v) :: rest else (k', v') :: setAssoc rest k v

/-- Model of `isObject` from `src/typeguards.ts`:
`typeof value === 'object' && value !== null`. -/
def isObject : JSValue → Bool
  | vObj _ _ => true
  | _ => false

/-- Model of `isString` from `src/typeguards.ts`. -/
def isString : JSValue → Bool
  | vStr _ => true
  | _ => false

/-- Model of `isFunction` from `src/typeguards.ts`. -/
def isFunction : JSValue → Bool
  | vFunc _ => true
  | _ => false

/-- Model of `isNumber` from `src/ebp/typeguards.ts`. -/
def isNumber : JSValue → Bool
  | vNum _ => true
  | _ => false

/-- Model of `nonNull` from `src/typeguards.ts`: `value != null`, i.e. the
value is neither `null` nor `undefined`. -/
def nonNullJS : JSValue → Bool
  | vNull => false
  | vUndefined => false
  | _ => true

/-- JavaScript truthiness, modelling `Boolean(value)`. -/
def toBoolean : JSValue → Bool
  | vNull => false
  | vUndefined => false
  | vBool b => b
  | vNum n => n ≠ 0
  | vStr s => s ≠ ""
  | vObj _ _ => true
  | vFunc _ => true

/-- JS member access `obj[k]`: own properties first, then the prototype
chain, `undefined` when absent. Non-objects yield `undefined` (the cases the
middleware guards with `isObject` anyway). -/
def jsGet (v : JSValue) (k : String) : JSValue :=
  match v with
  | vObj own proto =>
    match lookupAssoc own k with
    | some x => x
    | none =>
      match lookupAssoc proto k with
      | some x => x
      | none => vUndefined
  | _ => vUndefined

/-- Model of `Object.prototype.hasOwnProperty.call(obj, k)`: own properties
only, never the prototype chain. -/
def hasOwn (v : JSValue) (k : String) : Bool :=
  match v with
  | vObj own _ => (lookupAssoc own k).isSome
  | _ => false

/-- Model of the JS `in` operator: own or inherited property. -/
def jsIn (k : String) (v : JSValue) : Bool :=
  match v with
  | vObj own proto => (lookupAssoc own k).isSome || (lookupAssoc proto k).isSome
  | _ => false

/-- Property assignment `obj[k] = x` on an object value; other values are
returned unchanged (the middleware only assigns after an `isObject` guard). -/
def jsSet (v : JSValue) (k : String) (x : JSValue) : JSValue :=
  match v with
  | vObj own proto => vObj (setAssoc own k x) proto
  | other => other

/-- Parsed `Content-Type` header as produced by the `content-type` npm
package: the media type and the optional `charset` parameter. -/
structure ContentTypeInfo where
  type : String
  charset : Option String
deriving DecidableEq, Repr

/-- Incoming HTTP request as the middleware sees it: lower-cased header
mapping, the search parameters of the request target (the parse of the text
after `?` in `req.url` by the Node `URLSearchParams` builtin), the mutable
`body` slot (`vUndefined` when never set), and the byte chunks delivered by
the raw request stream. -/
structure Request where
  headers : List (String × String)
  urlSearch : List (String × String)
  body : JSValue
  chunks : List (List Nat)

/-- Header lookup (headers are lower-cased; absent models `undefined`). -/
def headerGet (headers : List (String × String)) (k : String) : Option String :=
  (headers.find? (fun p => p.1 = k)).map (fun p => p.2)

/-- Model of `searchParams.has(k)`. -/
def spHas (sp : List (String × String)) (k : String) : Bool :=
  sp.any (fun p => p.1 = k)

/-- Model of `searchParams.get(k)` (`none` models the `null` return). -/
def spGet (sp : List (String × String)) (k : String) : Option String :=
  (sp.find? (fun p => p.1 = k)).map (fun p => p.2)

/-- Output of the (possibly decompressing) stream handed to `get-stream`:
either the byte chunks it delivers, or a stream-level failure (e.g. malformed
gzip data) with the error message it emits. -/
inductive StreamData where
  | chunks (cs : List (List Nat))
  | failure (msg : String)

/-- Node/npm externals the middleware calls into, as parameters of the
model: zlib inflate/gunzip transforms, `Buffer.prototype.toString(charset)`,
`JSON.parse`, `querystring.parse`, and the `content-type` header parser.
All theorems quantify over these. -/
structure Externals where
  inflate : List (List Nat) → StreamData
  gunzip : List (List Nat) → StreamData
  decode : String → List Nat → String
  jsonParse : String → Except String JSValue
  qsParse : String → List (String × JSValue)
  parseContentType : String → Except String ContentTypeInfo

/-- Concrete externals used to evaluate witnesses on identity-encoded
requests (none of the theorems depend on this particular choice). -/
def defaultExternals : Externals where
  inflate := fun cs => .chunks cs
  gunzip := fun cs => .chunks cs
  decode := fun _ _ => ""
  jsonParse := fun _ => .error "unexpected"
  qsParse := fun _ => []
  parseContentType := fun s => .ok ⟨s, none⟩

/-- Model of `isCharsetSupported` from `src/ebp/readRawBody.ts`. -/
def isCharsetSupported (charset : String) : Bool :=
  charset = "utf-8" || charset = "utf8" || charset = "utf16le"

/-- Model of `getDecompressedStream` from `src/ebp/readRawBody.ts`: dispatch
on the declared `Content-Encoding`; an unknown token throws a 415 before any
stream bytes are consumed. -/
def getDecompressedStream (ext : Externals) (req : Request) (encoding : String) :
    Except JSErr StreamData :=
  match encoding with
  | "deflate" => .ok (ext.inflate req.chunks)
  | "gzip" => .ok (ext.gunzip req.chunks)
  | "identity" => .ok (.chunks req.chunks)
  | _ =>
    .error (httpError 415 ("Unsupported Content-Encoding: \"" ++ encoding ++ "\"."))

/-- Errors with which the `get-stream` promise can reject. -/
inductive GSErr where
  | maxBufferError
  | streamFailure (msg : String)
deriving DecidableEq, Repr

/-- Chunk accumulation loop of get-stream v6 in `'buffer'` mode: after each
data event the cumulative byte length is compared against `maxBuffer`, and a
`MaxBufferError` rejection fires as soon as it strictly exceeds it. -/
def collectChunks (cs : List (List Nat)) (len : Nat) (maxBuffer : Nat)
    (acc : List Nat) : Except GSErr (List Nat) :=
  match cs with
  | [] => .ok acc
  | c :: rest =>
    if len + c.length > maxBuffer then .error .maxBufferError
    else collectChunks rest (len + c.length) maxBuffer (acc ++ c)

/-- Model of `getStream.buffer(stream, { maxBuffer })` (get-stream v6): byte
chunks are concatenated, rejecting with `MaxBufferError` once the cumulative
byte count exceeds `maxBuffer`; a stream failure rejects with its message. -/
def getStreamBuffer (sd : StreamData) (maxBuffer : Nat) : Except GSErr (List Nat) :=
  match sd with
  | .failure m => .error (.streamFailure m)
  | .chunks cs => collectChunks cs 0 maxBuffer []

/-- Model of `readRawBody` from `src/ebp/readRawBody.ts`: reject unsupported
charsets (415) before touching the stream, wrap the stream per
`Content-Encoding`, buffer at most `maxSize` decoded bytes (413 beyond), and
decode the buffered bytes with the declared charset. -/
def readRawBody (ext : Externals) (contentTypeInfo : ContentTypeInfo)
    (maxSize : Nat) (req : Request) : Except JSErr String :=
  let charset := ((contentTypeInfo.charset.map String.toLower).getD "utf-8")
  if ¬ isCharsetSupported charset then
    .error (httpError 415 ("Unsupported charset \"" ++ charset.toUpper ++ "\"."))
  else
    let encoding :=
      ((headerGet req.headers "content-encoding").map String.toLower).getD "identity"
    match getDecompressedStream ext req encoding with
    | .error e => .error e
    | .ok sd =>
      match getStreamBuffer sd maxSize with
      | .ok bodyBuffer => .ok (ext.decode charset bodyBuffer)
      | .error .maxBufferError => .error (httpError 413 "Request body too large.")
      | .error (.streamFailure m) =>
        .error (httpError 400 ("Invalid request body: " ++ m ++ "."))

/-- Whitespace class of the JSON-object pre-check regex `^[ \t\n\r]*{`. -/
def isJsonSpace (c : Char) : Bool :=
  c = ' ' || c = '\t' || c = '\n' || c = '\r'

/-- Test of the regex `/^[ \t\n\r]*{/` from `src/ebp/parseJsonObject.ts`. -/
def startsWithJsonObjectBrace (s : String) : Bool :=
  match s.data.dropWhile isJsonSpace with
  | c :: _ => c = Char.ofNat 123
  | [] => false

/-- Model of `parseJsonObject` from `src/ebp/parseJsonObject.ts`: texts not
starting (after whitespace) with an opening brace are rejected before
`JSON.parse` is attempted. -/
def parseJsonObject (ext : Externals) (json : String) : Except String JSValue :=
  if ¬ startsWithJsonObjectBrace json then .error "Not a JSON object."
  else ext.jsonParse json

/-- Byte ceiling used by the middleware: 100 KiB
(`MAX_BUFFER_SIZE_KIB * UNIT_KIB`). -/
def maxBufferSize : Nat := 100 * 1024

/-- Model of `parseRequestBodyIfNecessary` from
`src/parseRequestBodyIfNecessary.ts` (the raw-body read itself per
`src/ebp/readRawBody.ts`): a no-op when `body` is already non-null or no
`Content-Type` header is present; otherwise parses JSON / form-urlencoded
bodies into the `body` slot and leaves any other media type untouched. -/
def parseRequestBodyIfNecessary (ext : Externals) (req : Request) :
    Except JSErr Request :=
  if nonNullJS req.body then .ok req
  else
    match headerGet req.headers "content-type" with
    | none => .ok req
    | some ctHeader =>
      match ext.parseContentType ctHeader with
      | .error m => .error ⟨none, m⟩
      | .ok contentTypeInfo =>
        if contentTypeInfo.type = "application/json" then
          match readRawBody ext contentTypeInfo maxBufferSize req with
          | .error e => .error e
          | .ok rawBody =>
            match parseJsonObject ext rawBody with
            | .ok obj => .ok { req with body := obj }
            | .error _ =>
              .error (httpError 400 "Request body is not a valid JSON object.")
        else if contentTypeInfo.type = "application/x-www-form-urlencoded" then
          match readRawBody ext contentTypeInfo maxBufferSize req with
          | .error e => .error e
          | .ok rawBody => .ok { req with body := vObj (ext.qsParse rawBody) [] }
        else .ok req

/-- Middleware configuration resolved once at construction
(`ParsedOptions` from `src/types.ts`). -/
structure ParsedOptions where
  queryIdKey : String
  queryMap : JSValue
  strict : Bool

/-- Model of `parseOptions` from `src/parseOptions.ts`: the (awaited) options
value must be an object, its (awaited) `queryMap` an object or a function;
`queryIdKey` defaults to `"queryId"` and `strict` is coerced with
`Boolean`. Assertion failures are plain `TypeError`s (no status code). -/
def parseOptions (options : JSValue) : Except JSErr ParsedOptions :=
  if ¬ isObject options then
    .error ⟨none,
      "The options passed to persistedQueries must be an object or a promise that resolves with an object."⟩
  else
    let queryMap := jsGet options "queryMap"
    if ¬ (isObject queryMap || isFunction queryMap) then
      .error ⟨none,
        "options.queryMap must be an object, a function, or a promise that resolves with an object or function."⟩
    else
      .ok
        { queryIdKey :=
            match jsGet options "queryIdKey" with
            | vStr s => s
            | _ => "queryId"
          queryMap
          strict := toBoolean (jsGet options "strict") }

/-- Configuration of the extracted body-parser middleware
(`ParsedOptions` from `src/ebp/types.ts`). -/
structure EbpParsedOptions where
  maxSize : Nat
deriving DecidableEq, Repr

/-- Model of `parseOptions` from `src/ebp/parseOptions.ts`: options must be
an object; `maxSize` defaults to `100 * UNIT_KIB` bytes. -/
def parseOptionsEbp (options : JSValue) : Except JSErr EbpParsedOptions :=
  if ¬ isObject options then
    .error ⟨none, "The options passed to the bodyParser middleware must be an object."⟩
  else
    match jsGet options "maxSize" with
    | vNum n => .ok ⟨n.toNat⟩
    | _ => .ok ⟨100 * 1024⟩

/-- Query-id extraction step of `getPersistedQuery`
(`src/getPersistedQuery.ts`, line 38):
`searchParams.get(queryIdKey) ?? (isObject(body) ? body[queryIdKey] : null)`. -/
def extractedQueryId (queryIdKey : String) (req : Request) : JSValue :=
  match spGet req.urlSearch queryIdKey with
  | some v => vStr v
  | none => if isObject req.body then jsGet req.body queryIdKey else vNull

/-- Lookup step of `getPersistedQuery` (`src/getPersistedQuery.ts`,
lines 51–57): a callback map is invoked and awaited (a throw propagates); a
table map is consulted only through an own-property check, the initial
`null` surviving otherwise. -/
def lookupPersistedQuery (queryMap : JSValue) (queryId : String) :
    Except JSErr JSValue :=
  match queryMap with
  | vFunc f => f queryId
  | other =>
    if hasOwn other queryId then .ok (jsGet other queryId) else .ok vNull

/-- Model of `getPersistedQuery` from `src/getPersistedQuery.ts`. -/
def getPersistedQuery (queryIdKey : String) (queryMap : JSValue) (req : Request)
    (strict : Bool) : Except JSErr (Option String) :=
  if strict && spHas req.urlSearch "query" then
    .error (httpError 400 "Search params have \"query\" but only persisted queries are allowed.")
  else if strict && isObject req.body && jsIn "query" req.body then
    .error (httpError 400 "Request body has \"query\" but only persisted queries are allowed.")
  else
    match extractedQueryId queryIdKey req with
    | vStr queryId =>
      match lookupPersistedQuery queryMap queryId with
      | .error e => .error e
      | .ok persistedQuery =>
        match persistedQuery with
        | vStr q => .ok (some q)
        | _ =>
          .error (httpError 400
            ("The provided query ID \"" ++ queryId ++ "\" did not match any persisted query."))
    | _ =>
      if strict then
        .error (httpError 400
          ("Request must provide a query ID under \"" ++ queryIdKey ++
            "\" key either in search params or request body."))
      else .ok none

/-- JSON string escaping as performed by `JSON.stringify` on one character:
quote and backslash are escaped, the named control escapes are used where
they exist, other control characters become `\u00XX`, and everything else
passes through. -/
def jsonEscapeChar (c : Char) : String :=
  if c = '"' then "\\\""
  else if c = '\\' then "\\\\"
  else if c = '\x08' then "\\b"
  else if c = '\t' then "\\t"
  else if c = '\n' then "\\n"
  else if c = '\x0c' then "\\f"
  else if c = '\r' then "\\r"
  else if c.toNat < 32 then
    "\\u00" ++ String.singleton (Nat.digitChar (c.toNat / 16)) ++
      String.singleton (Nat.digitChar (c.toNat % 16))
  else String.singleton c

/-- JSON escaping of a whole string (without the surrounding quotes). -/
def jsonEscape (s : String) : String :=
  s.data.foldl (fun acc c => acc ++ jsonEscapeChar c) ""

/-- Serialized error envelope: `JSON.stringify` of the formatted execution
result `\x7b data: undefined, errors: [\x7b message \x7d] \x7d`, in which
`undefined` members are dropped, yielding
`\x7b"errors":[\x7b"message":"<escaped>"\x7d]\x7d`. -/
def errorResultJson (message : String) : String :=
  "\x7b\"errors\":[\x7b\"message\":\"" ++ jsonEscape message ++ "\"\x7d]\x7d"

/-- Response as written by `sendJson`: status code, the two headers it sets,
and the terminal body write. -/
structure ResponseWritten where
  statusCode : Nat
  contentType : String
  contentLength : Nat
  body : String
deriving DecidableEq, Repr

/-- Model of `sendJson` from `src/sendJson.ts` (the payload argument given
as its `JSON.stringify` serialization): sets
`Content-Type: application/json; charset=utf-8`, a `Content-Length` equal to
the byte length of the UTF-8 encoding of the payload, and ends the response
with that payload. -/
def sendJson (statusCode : Nat) (payloadJson : String) : ResponseWritten :=
  { statusCode
    contentType := "application/json; charset=utf-8"
    contentLength := payloadJson.utf8ByteSize
    body := payloadJson }

/-- Normalization performed by `httpError(500, error)` in the middleware
catch block (`http-errors` semantics): an error already carrying a status
code keeps it, a plain error becomes a 500; the message is preserved. -/
def normalizeCaughtError (e : JSErr) : JSErr :=
  ⟨some (e.statusCode.getD 500), e.message⟩

/-- Observable outcome of one middleware invocation: whether the
next-handler continuation was invoked, the response written (if any), and
the request object after any `body` mutations. -/
structure MiddlewareOutcome where
  nextCalled : Bool
  response : Option ResponseWritten
  request : Request

/-- Failure path of `persistedQueriesMiddleware` (`src/index.ts`, catch
block): normalize the caught error, set the status code from it, and send
the GraphQL error envelope; the continuation is never invoked. -/
def failOutcome (req : Request) (e : JSErr) : MiddlewareOutcome :=
  let error := normalizeCaughtError e
  { nextCalled := false
    response := some (sendJson (error.statusCode.getD 500) (errorResultJson error.message))
    request := req }

/-- Query-text injection step of `persistedQueriesMiddleware`
(`src/index.ts`, lines 36–42): assign `body.query` on an object body,
otherwise replace the body with a fresh `\x7b query \x7d` mapping. -/
def injectQuery (body : JSValue) (q : String) : JSValue :=
  if isObject body then jsSet body "query" (vStr q) else vObj [("query", vStr q)] []

/-- Model of one invocation of `persistedQueriesMiddleware` from
`src/index.ts`: await the memoized parsed options, materialize the body if
necessary, resolve the persisted query, inject a resolved string under
`body.query`, and call `next`; any failure goes to the catch block
(`failOutcome`) instead. -/
def persistedQueriesMiddleware (ext : Externals)
    (parsedOptions : Except JSErr ParsedOptions) (req : Request) :
    MiddlewareOutcome :=
  match parsedOptions with
  | .error e => failOutcome req e
  | .ok opts =>
    match parseRequestBodyIfNecessary ext req with
    | .error e => failOutcome req e
    | .ok req1 =>
      match getPersistedQuery opts.queryIdKey opts.queryMap req1 opts.strict with
      | .error e => failOutcome req1 e
      | .ok persistedQuery =>
        let req2 :=
          match persistedQuery with
          | some q => { req1 with body := injectQuery req1.body q }
          | none => req1
        { nextCalled := true, response := none, request := req2 }

/-- Construction-time state of a `persistedQueries` middleware instance:
the memoized outcome of option parsing, shared by every request, and the
`console.error` log produced by `parsedOptions.catch(console.error)`. -/
structure ConstructedMiddleware where
  parsedOptions : Except JSErr ParsedOptions
  consoleErrors : List String

/-- Model of `persistedQueries` from `src/index.ts`: assert that options are
non-null (a synchronous `TypeError` otherwise), parse them immediately,
memoize the result, and attach the one-time `console.error` rejection
logger. -/
def persistedQueries (options : JSValue) : Except JSErr ConstructedMiddleware :=
  if ¬ nonNullJS options then
    .error ⟨none, "You must provide options to the persistedQueries middleware."⟩
  else
    let parsedOptions := parseOptions options
    .ok
      { parsedOptions
        consoleErrors :=
          match parsedOptions with
          | .error e => [e.message]
          | .ok _ => [] }

/-! Helper lemmas. -/

/-- Conversion of a valid scalar value round-trips through `Char.ofNat`. -/
theorem char_toNat_ofNat_valid (n : Nat) (hv : n.isValidChar) :
    (Char.ofNat n).toNat = n := by
  rw [Char.ofNat, dif_pos hv]
  simp [Char.toNat, Char.ofNatAux, UInt32.toNat, BitVec.toNat_ofNatLt]

/-- Lower-casing a character first does not change its upper-casing. -/
theorem char_toUpper_toLower (c : Char) : c.toLower.toUpper = c.toUpper := by
  simp only [Char.toLower, Char.toUpper]
  split
  · rename_i h
    have hv : (c.toNat + 32).isValidChar := by
      unfold Nat.isValidChar
      omega
    rw [char_toNat_ofNat_valid _ hv]
    have h2 : c.toNat + 32 ≥ 97 ∧ c.toNat + 32 ≤ 122 := by omega
    rw [if_pos h2]
    have h3 : c.toNat + 32 - 32 = c.toNat := by omega
    rw [h3, Char.ofNat_toNat]
    rw [if_neg]
    omega
  · rfl

/-- Lower-casing a string first does not change its upper-casing (the
display normalization performed on rejected charset tokens). -/
theorem string_toUpper_toLower (s : String) : s.toLower.toUpper = s.toUpper := by
  simp only [String.toLower, String.toUpper]
  rw [String.map_eq, String.map_eq, String.map_eq]
  apply String.ext
  simp [char_toUpper_toLower]

/-- Chunk accumulation succeeds with the concatenation of all chunks exactly
when the cumulative byte count stays within the ceiling. -/
theorem collectChunks_ok (maxBuffer : Nat) :
    ∀ (cs : List (List Nat)) (len : Nat) (acc : List Nat),
      len + (cs.map List.length).sum ≤ maxBuffer →
      collectChunks cs len maxBuffer acc = .ok (acc ++ cs.flatten) := by
  intro cs
  induction cs with
  | nil => intro len acc _; simp [collectChunks]
  | cons c rest ih =>
    intro len acc h
    simp only [List.map_cons, List.sum_cons] at h
    rw [collectChunks, if_neg (by omega)]
    rw [ih (len + c.length) (acc ++ c) (by omega)]
    simp

/-- Chunk accumulation rejects with `MaxBufferError` as soon as the
cumulative byte count exceeds the ceiling. -/
theorem collectChunks_err (maxBuffer : Nat) :
    ∀ (cs : List (List Nat)) (len : Nat) (acc : List Nat),
      len ≤ maxBuffer →
      len + (cs.map List.length).sum > maxBuffer →
      collectChunks cs len maxBuffer acc = .error .maxBufferError := by
  intro cs
  induction cs with
  | nil => intro len acc hle h; simp at h; omega
  | cons c rest ih =>
    intro len acc hle h
    simp only [List.map_cons, List.sum_cons] at h
    rw [collectChunks]
    by_cases hc : len + c.length > maxBuffer
    · rw [if_pos hc]
    · rw [if_neg hc]
      exact ih (len + c.length) (acc ++ c) (by omega) (by omega)

/-- C1: for a JSON or form-urlencoded request whose decompressed stream
delivers byte chunks `cs`, the raw-body read succeeds exactly when the
decoded byte count is at most the configured ceiling, and fails with a 413
"Request body too large." error as soon as the byte count exceeds it (so in
particular at ceiling+1); the count is the byte length of the decoded
stream, never a character count, and the default ceiling (`bodyParser()`
with no `maxSize`) is 100 KiB = 102400 bytes. -/
theorem readRawBody_byte_ceiling
    (ext : Externals) (cti : ContentTypeInfo) (maxSize : Nat) (req : Request)
    (cs : List (List Nat))
    (hcharset : isCharsetSupported ((cti.charset.map String.toLower).getD "utf-8") = true)
    (hstream : getDecompressedStream ext req
      (((headerGet req.headers "content-encoding").map String.toLower).getD "identity") =
      .ok (.chunks cs)) :
    ((cs.map List.length).sum ≤ maxSize →
      readRawBody ext cti maxSize req =
        .ok (ext.decode ((cti.charset.map String.toLower).getD "utf-8") cs.flatten)) ∧
    ((cs.map List.length).sum > maxSize →
      readRawBody ext cti maxSize req =
        .error ⟨some 413, "Request body too large."⟩) ∧
    parseOptionsEbp (vObj [] []) = .ok ⟨102400⟩ ∧ maxBufferSize = 102400 := by
  refine ⟨?_, ?_, by rfl, by rfl⟩
  · intro hle
    rw [readRawBody]
    simp only [hcharset, not_true, if_false, hstream]
    rw [getStreamBuffer, collectChunks_ok maxSize cs 0 [] (by omega)]
    simp
  · intro hgt
    rw [readRawBody]
    simp only [hcharset, not_true, if_false, hstream]
    rw [getStreamBuffer, collectChunks_err maxSize cs 0 [] (Nat.zero_le _) (by omega)]
    rfl

/-- Witness for C1: a 3-byte, 2-character body (`"éa"`, UTF-8) against a
2-byte ceiling is rejected 413 even though its character count is within the
ceiling, and the same body is accepted at a 3-byte ceiling. -/
theorem readRawBody_byte_ceiling_witness :
    readRawBody defaultExternals ⟨"application/json", some "utf-8"⟩ 2
      { headers := [], urlSearch := [], body := JSValue.vUndefined,
        chunks := [[195, 169, 97]] } =
      .error ⟨some 413, "Request body too large."⟩ ∧
    readRawBody defaultExternals ⟨"application/json", some "utf-8"⟩ 3
      { headers := [], urlSearch := [], body := JSValue.vUndefined,
        chunks := [[195, 169, 97]] } =
      .ok (defaultExternals.decode "utf-8" [195, 169, 97]) := by
  have hcs : isCharsetSupported
      ((Option.map String.toLower (ContentTypeInfo.charset
        ⟨"application/json", some "utf-8"⟩)).getD "utf-8") = true := by
    show isCharsetSupported ("utf-8".toLower) = true
    rw [String.toLower, String.map_eq]
    decide
  constructor
  · exact (readRawBody_byte_ceiling defaultExternals ⟨"application/json", some "utf-8"⟩ 2
      { headers := [], urlSearch := [], body := JSValue.vUndefined,
        chunks := [[195, 169, 97]] } [[195, 169, 97]] hcs (by rfl)).2.1 (by decide)
  · exact (readRawBody_byte_ceiling defaultExternals ⟨"application/json", some "utf-8"⟩ 3
      { headers := [], urlSearch := [], body := JSValue.vUndefined,
        chunks := [[195, 169, 97]] } [[195, 169, 97]] hcs (by rfl)).1 (by decide)

/-- C5: a declared charset whose lower-casing is not one of `utf-8`, `utf8`,
`utf16le` makes the raw-body read fail with a 415 error whose message shows
the token normalized to uppercase, for every request body, stream content
and set of externals alike — so the check precedes any read from the
stream and ignores whether the body would otherwise parse. -/
theorem readRawBody_unsupported_charset
    (ext : Externals) (cti : ContentTypeInfo) (maxSize : Nat) (req : Request)
    (cs : String) (hcs : cti.charset = some cs)
    (hunsup : isCharsetSupported cs.toLower = false) :
    readRawBody ext cti maxSize req =
      .error ⟨some 415, "Unsupported charset \"" ++ cs.toUpper ++ "\"."⟩ := by
  rw [readRawBody]
  simp only [hcs, Option.map_some', Option.getD_some, hunsup, Bool.false_eq_true,
    not_false_eq_true, if_true, string_toUpper_toLower]
  rfl

/-- Witness for C5: a request declaring charset `utf-18` is rejected 415
with message `Unsupported charset "UTF-18".` whatever its body bytes are. -/
theorem readRawBody_unsupported_charset_witness :
    readRawBody defaultExternals ⟨"application/json", some "utf-18"⟩ 102400
      { headers := [], urlSearch := [], body := JSValue.vUndefined,
        chunks := [[123, 125]] } =
      .error ⟨some 415, "Unsupported charset \"UTF-18\"."⟩ := by
  have h := readRawBody_unsupported_charset defaultExternals
    ⟨"application/json", some "utf-18"⟩ 102400
    { headers := [], urlSearch := [], body := JSValue.vUndefined,
      chunks := [[123, 125]] } "utf-18" rfl
    (by rw [String.toLower, String.map_eq]; decide)
  rw [show "utf-18".toUpper = "UTF-18" by rw [String.toUpper, String.map_eq]; decide] at h
  exact h

/-- C2: against a table-based query map, an extracted query id that is not
an own property of the table never resolves through the prototype chain —
whatever inherited properties (e.g. `toString`) the table has, resolution
fails with the 400 "did not match any persisted query" error naming the
id. -/
theorem getPersistedQuery_own_property_only
    (queryIdKey : String) (own proto : List (String × JSValue)) (req : Request)
    (strict : Bool) (queryId : String)
    (hg1 : (strict && spHas req.urlSearch "query") = false)
    (hg2 : (strict && isObject req.body && jsIn "query" req.body) = false)
    (hid : extractedQueryId queryIdKey req = JSValue.vStr queryId)
    (hown : lookupAssoc own queryId = none) :
    getPersistedQuery queryIdKey (JSValue.vObj own proto) req strict =
      .error ⟨some 400,
        "The provided query ID \"" ++ queryId ++ "\" did not match any persisted query."⟩ := by
  rw [getPersistedQuery, if_neg (by simp [hg1]), if_neg (by simp [hg2]), hid]
  simp only [lookupPersistedQuery, hasOwn, hown, Option.isSome_none, Bool.false_eq_true,
    if_false]
  rfl

/-- Witness for C2: the id `toString` collides with an inherited property
of the table (here even an inherited *string*), yet lookup reports it as
not matching any persisted query. -/
theorem getPersistedQuery_own_property_only_witness :
    getPersistedQuery "queryId"
      (JSValue.vObj [("greet", JSValue.vStr "query text")]
        [("toString", JSValue.vStr "inherited string")])
      { headers := [], urlSearch := [("queryId", "toString")],
        body := JSValue.vUndefined, chunks := [] }
      false =
      .error ⟨some 400,
        "The provided query ID \"toString\" did not match any persisted query."⟩ := by
  exact getPersistedQuery_own_property_only "queryId"
    [("greet", JSValue.vStr "query text")]
    [("toString", JSValue.vStr "inherited string")]
    { headers := [], urlSearch := [("queryId", "toString")],
      body := JSValue.vUndefined, chunks := [] }
    false "toString" rfl rfl rfl rfl

/-- C3: with `strict` set, the search-params guard fires first — even when a
valid query id is also present — and the body guard fires second, before
the query-id key is ever examined; when both violations are present the
search-params error wins. -/
theorem getPersistedQuery_strict_guard_order
    (queryIdKey : String) (queryMap : JSValue) (req : Request) :
    (spHas req.urlSearch "query" = true →
      getPersistedQuery queryIdKey queryMap req true =
        .error ⟨some 400,
          "Search params have \"query\" but only persisted queries are allowed."⟩) ∧
    (spHas req.urlSearch "query" = false →
      isObject req.body = true → jsIn "query" req.body = true →
      getPersistedQuery queryIdKey queryMap req true =
        .error ⟨some 400,
          "Request body has \"query\" but only persisted queries are allowed."⟩) := by
  constructor
  · intro h
    rw [getPersistedQuery, if_pos (by simp [h])]
    rfl
  · intro h1 h2 h3
    rw [getPersistedQuery, if_neg (by simp [h1]), if_pos (by simp [h2, h3])]
    rfl

/-- Witness for C3: a strict request violating both guards while also
carrying a valid id under `queryId` is rejected with the search-params
error. -/
theorem getPersistedQuery_strict_guard_order_witness :
    getPersistedQuery "queryId"
      (JSValue.vObj [("greet", JSValue.vStr "query text")] [])
      { headers := [],
        urlSearch := [("query", "raw text"), ("queryId", "greet")],
        body := JSValue.vObj [("query", JSValue.vStr "raw text")] [],
        chunks := [] }
      true =
      .error ⟨some 400,
        "Search params have \"query\" but only persisted queries are allowed."⟩ := by
  exact (getPersistedQuery_strict_guard_order "queryId"
    (JSValue.vObj [("greet", JSValue.vStr "query text")] [])
    { headers := [],
      urlSearch := [("query", "raw text"), ("queryId", "greet")],
      body := JSValue.vObj [("query", JSValue.vStr "raw text")] [],
      chunks := [] }).1 rfl

/-- C4: every failure raised while resolving options, materializing the body
or resolving the query produces a response whose status code comes from the
failure (plain errors defaulting to 500), with
`Content-Type: application/json; charset=utf-8`, a `Content-Length` equal to
the UTF-8 byte length of the serialized payload, and the
`\x7b"errors":[\x7b"message":...\x7d]\x7d` envelope as body; the next-handler
continuation is never invoked on such a request. -/
theorem middleware_error_envelope
    (ext : Externals) (parsedOptions : Except JSErr ParsedOptions) (req : Request) :
    (∀ e, parsedOptions = .error e →
      persistedQueriesMiddleware ext parsedOptions req =
        { nextCalled := false
          response := some
            { statusCode := e.statusCode.getD 500
              contentType := "application/json; charset=utf-8"
              contentLength := (errorResultJson e.message).utf8ByteSize
              body := errorResultJson e.message }
          request := req }) ∧
    (∀ opts e, parsedOptions = .ok opts →
      parseRequestBodyIfNecessary ext req = .error e →
      persistedQueriesMiddleware ext parsedOptions req =
        { nextCalled := false
          response := some
            { statusCode := e.statusCode.getD 500
              contentType := "application/json; charset=utf-8"
              contentLength := (errorResultJson e.message).utf8ByteSize
              body := errorResultJson e.message }
          request := req }) ∧
    (∀ opts req1 e, parsedOptions = .ok opts →
      parseRequestBodyIfNecessary ext req = .ok req1 →
      getPersistedQuery opts.queryIdKey opts.queryMap req1 opts.strict = .error e →
      persistedQueriesMiddleware ext parsedOptions req =
        { nextCalled := false
          response := some
            { statusCode := e.statusCode.getD 500
              contentType := "application/json; charset=utf-8"
              contentLength := (errorResultJson e.message).utf8ByteSize
              body := errorResultJson e.message }
          request := req1 }) := by
  refine ⟨?_, ?_, ?_⟩
  · intro e he
    simp only [persistedQueriesMiddleware.eq_def, he]
    rfl
  · intro opts e hok hmat
    simp only [persistedQueriesMiddleware.eq_def, hok, hmat]
    rfl
  · intro opts req1 e hok hmat hres
    simp only [persistedQueriesMiddleware.eq_def, hok, hmat, hres]
    rfl

/-- Witness for C4: a 400 resolution failure (unknown id against an empty
table) is turned into a 400 response with the JSON envelope, the exact
UTF-8 `Content-Length`, and no continuation call. -/
theorem middleware_error_envelope_witness :
    persistedQueriesMiddleware defaultExternals
      (.ok { queryIdKey := "queryId", queryMap := JSValue.vObj [] [], strict := false })
      { headers := [], urlSearch := [("queryId", "missing")],
        body := JSValue.vObj [] [], chunks := [] } =
      { nextCalled := false
        response := some
          { statusCode := 400
            contentType := "application/json; charset=utf-8"
            contentLength :=
              (errorResultJson
                "The provided query ID \"missing\" did not match any persisted query.").utf8ByteSize
            body := errorResultJson
              "The provided query ID \"missing\" did not match any persisted query." }
        request :=
          { headers := [], urlSearch := [("queryId", "missing")],
            body := JSValue.vObj [] [], chunks := [] } } := by
  exact (middleware_error_envelope defaultExternals
    (.ok { queryIdKey := "queryId", queryMap := JSValue.vObj [] [], strict := false })
    { headers := [], urlSearch := [("queryId", "missing")],
      body := JSValue.vObj [] [], chunks := [] }).2.2
    { queryIdKey := "queryId", queryMap := JSValue.vObj [] [], strict := false }
    { headers := [], urlSearch := [("queryId", "missing")],
      body := JSValue.vObj [] [], chunks := [] }
    ⟨some 400, "The provided query ID \"missing\" did not match any persisted query."⟩
    rfl rfl rfl

/-- Counterexample for C6: a callback-based query map that throws does not
produce the 400 "did not match any persisted query" failure the claim
requires — the thrown error propagates out of `getPersistedQuery`
unchanged (here a plain error with message `boom`, and no 400 status). -/
theorem getPersistedQuery_callback_throw_counterexample :
    getPersistedQuery "queryId"
      (JSValue.vFunc (fun _ => .error ⟨none, "boom"⟩))
      { headers := [], urlSearch := [("queryId", "x")],
        body := JSValue.vUndefined, chunks := [] }
      false =
      .error ⟨none, "boom"⟩ ∧
    (⟨none, "boom"⟩ : JSErr) ≠
      ⟨some 400, "The provided query ID \"x\" did not match any persisted query."⟩ := by
  exact ⟨rfl, by decide⟩

/-- C6 (amended): a callback returning `null`/`undefined` (or any
non-string) makes resolution fail 400 with the
`The provided query ID "<id>" did not match any persisted query.` message,
the id interpolated verbatim; a callback that throws or rejects instead
propagates its own error out of `getPersistedQuery` (the middleware then
normalizes it to a 500-class response). -/
theorem getPersistedQuery_callback_results
    (f : String → Except JSErr JSValue) (queryIdKey : String) (req : Request)
    (strict : Bool) (queryId : String)
    (hg1 : (strict && spHas req.urlSearch "query") = false)
    (hg2 : (strict && isObject req.body && jsIn "query" req.body) = false)
    (hid : extractedQueryId queryIdKey req = JSValue.vStr queryId) :
    (∀ v, f queryId = .ok v → isString v = false →
      getPersistedQuery queryIdKey (JSValue.vFunc f) req strict =
        .error ⟨some 400,
          "The provided query ID \"" ++ queryId ++ "\" did not match any persisted query."⟩) ∧
    (∀ e, f queryId = .error e →
      getPersistedQuery queryIdKey (JSValue.vFunc f) req strict = .error e) := by
  constructor
  · intro v hv hns
    rw [getPersistedQuery, if_neg (by simp [hg1]), if_neg (by simp [hg2]), hid]
    simp only [lookupPersistedQuery, hv]
    cases v with
    | vStr s => simp [isString] at hns
    | vNull => rfl
    | vUndefined => rfl
    | vBool b => rfl
    | vNum n => rfl
    | vObj own proto => rfl
    | vFunc g => rfl
  · intro e he
    rw [getPersistedQuery, if_neg (by simp [hg1]), if_neg (by simp [hg2]), hid]
    simp only [lookupPersistedQuery, he]

/-- Witness for C6 (amended): a callback answering `null` for id `missing`
yields the 400 not-matched failure, and the same pipeline with a throwing
callback propagates the thrown error instead. -/
theorem getPersistedQuery_callback_results_witness :
    getPersistedQuery "queryId"
      (JSValue.vFunc (fun _ => .ok JSValue.vNull))
      { headers := [], urlSearch := [("queryId", "missing")],
        body := JSValue.vUndefined, chunks := [] }
      false =
      .error ⟨some 400,
        "The provided query ID \"missing\" did not match any persisted query."⟩ ∧
    getPersistedQuery "queryId"
      (JSValue.vFunc (fun _ => .error ⟨none, "lookup exploded"⟩))
      { headers := [], urlSearch := [("queryId", "missing")],
        body := JSValue.vUndefined, chunks := [] }
      false =
      .error ⟨none, "lookup exploded"⟩ := by
  constructor
  · exact (getPersistedQuery_callback_results (fun _ => .ok JSValue.vNull) "queryId"
      { headers := [], urlSearch := [("queryId", "missing")],
        body := JSValue.vUndefined, chunks := [] }
      false "missing" rfl rfl rfl).1 JSValue.vNull rfl rfl
  · exact (getPersistedQuery_callback_results (fun _ => .error ⟨none, "lookup exploded"⟩)
      "queryId"
      { headers := [], urlSearch := [("queryId", "missing")],
        body := JSValue.vUndefined, chunks := [] }
      false "missing" rfl rfl rfl).2 ⟨none, "lookup exploded"⟩ rfl

/-- Configuration failures raised by `parseOptions` are plain `TypeError`s,
so they carry no HTTP status code of their own. -/
theorem parseOptions_error_statusCode (options : JSValue) (e : JSErr)
    (h : parseOptions options = .error e) : e.statusCode = none := by
  rw [parseOptions.eq_def] at h
  split at h
  · cases h
    rfl
  · by_cases h2 : (isObject (jsGet options "queryMap") ||
      isFunction (jsGet options "queryMap")) = true
    · rw [if_neg (by simp [h2])] at h
      cases h
    · rw [if_pos (by simp [h2])] at h
      cases h
      rfl

/-- C7: `persistedQueries` parses its options at construction and memoizes
the outcome: when parsing fails, the failure's message is logged exactly
once to `console.error` at construction time, and every request served by
the returned middleware — whatever its content and externals — fails with
a 500 response carrying that same message, derived from the memoized parse
result. -/
theorem persistedQueries_construction_failure
    (options : JSValue) (c : ConstructedMiddleware) (e : JSErr)
    (hc : persistedQueries options = .ok c)
    (he : parseOptions options = .error e) :
    c.parsedOptions = .error e ∧
    c.consoleErrors = [e.message] ∧
    (∀ ext req, persistedQueriesMiddleware ext c.parsedOptions req =
      { nextCalled := false
        response := some
          { statusCode := 500
            contentType := "application/json; charset=utf-8"
            contentLength := (errorResultJson e.message).utf8ByteSize
            body := errorResultJson e.message }
        request := req }) := by
  rw [persistedQueries.eq_def] at hc
  split at hc
  · cases hc
  · rw [he] at hc
    cases hc
    refine ⟨rfl, rfl, ?_⟩
    intro ext req
    simp only [persistedQueriesMiddleware.eq_def, he, failOutcome, normalizeCaughtError,
      parseOptions_error_statusCode options e he]
    rfl

/-- Witness for C7: constructing the middleware with `\x7b\x7d` (an object
with no usable `queryMap`) logs the queryMap type error once, and a request
against the constructed instance gets the 500 envelope with that message. -/
theorem persistedQueries_construction_failure_witness :
    persistedQueries (JSValue.vObj [] []) =
      .ok
        { parsedOptions := .error ⟨none,
            "options.queryMap must be an object, a function, or a promise that resolves with an object or function."⟩
          consoleErrors :=
            ["options.queryMap must be an object, a function, or a promise that resolves with an object or function."] } ∧
    persistedQueriesMiddleware defaultExternals
      (.error ⟨none,
        "options.queryMap must be an object, a function, or a promise that resolves with an object or function."⟩)
      { headers := [], urlSearch := [], body := JSValue.vUndefined, chunks := [] } =
      { nextCalled := false
        response := some
          { statusCode := 500
            contentType := "application/json; charset=utf-8"
            contentLength := (errorResultJson
              "options.queryMap must be an object, a function, or a promise that resolves with an object or function.").utf8ByteSize
            body := errorResultJson
              "options.queryMap must be an object, a function, or a promise that resolves with an object or function." }
        request := { headers := [], urlSearch := [], body := JSValue.vUndefined, chunks := [] } } := by
  constructor
  · rfl
  · have h := persistedQueries_construction_failure (JSValue.vObj [] [])
      { parsedOptions := .error ⟨none,
          "options.queryMap must be an object, a function, or a promise that resolves with an object or function."⟩
        consoleErrors :=
          ["options.queryMap must be an object, a function, or a promise that resolves with an object or function."] }
      ⟨none,
        "options.queryMap must be an object, a function, or a promise that resolves with an object or function."⟩
      rfl rfl
    exact h.2.2 defaultExternals
      { headers := [], urlSearch := [], body := JSValue.vUndefined, chunks := [] }

/-- C8: body materialization is a no-op — the request returned unchanged by
identity, its stream untouched, for every choice of externals — whenever
the body slot is already non-null or no `Content-Type` header is present;
in particular running it again on its own output is idempotent once the
body is populated. -/
theorem parseRequestBodyIfNecessary_noop (ext : Externals) (req : Request) :
    (nonNullJS req.body = true → parseRequestBodyIfNecessary ext req = .ok req) ∧
    (headerGet req.headers "content-type" = none →
      parseRequestBodyIfNecessary ext req = .ok req) ∧
    (∀ req1, parseRequestBodyIfNecessary ext req = .ok req1 →
      nonNullJS req1.body = true →
      parseRequestBodyIfNecessary ext req1 = .ok req1) := by
  refine ⟨?_, ?_, ?_⟩
  · intro h
    rw [parseRequestBodyIfNecessary.eq_def, if_pos h]
  · intro h
    rw [parseRequestBodyIfNecessary.eq_def]
    split
    · rfl
    · rw [h]
  · intro req1 _ h1
    rw [parseRequestBodyIfNecessary.eq_def, if_pos h1]

/-- Witness for C8: a request whose body was already parsed upstream, and a
request with no `Content-Type` header, both pass through untouched. -/
theorem parseRequestBodyIfNecessary_noop_witness :
    parseRequestBodyIfNecessary defaultExternals
      { headers := [("content-type", "application/json")],
        urlSearch := [],
        body := JSValue.vObj [("queryId", JSValue.vStr "greet")] [],
        chunks := [[1, 2, 3]] } =
      .ok
        { headers := [("content-type", "application/json")],
          urlSearch := [],
          body := JSValue.vObj [("queryId", JSValue.vStr "greet")] [],
          chunks := [[1, 2, 3]] } ∧
    parseRequestBodyIfNecessary defaultExternals
      { headers := [], urlSearch := [], body := JSValue.vUndefined,
        chunks := [[1, 2, 3]] } =
      .ok
        { headers := [], urlSearch := [], body := JSValue.vUndefined,
          chunks := [[1, 2, 3]] } := by
  constructor
  · exact (parseRequestBodyIfNecessary_noop defaultExternals
      { headers := [("content-type", "application/json")],
        urlSearch := [],
        body := JSValue.vObj [("queryId", JSValue.vStr "greet")] [],
        chunks := [[1, 2, 3]] }).1 rfl
  · exact (parseRequestBodyIfNecessary_noop defaultExternals
      { headers := [], urlSearch := [], body := JSValue.vUndefined,
        chunks := [[1, 2, 3]] }).2.1 rfl

/-- Assigning a key makes it look up to the assigned value. -/
theorem lookupAssoc_setAssoc_self (l : List (String × JSValue)) (k : String)
    (v : JSValue) : lookupAssoc (setAssoc l k v) k = some v := by
  induction l with
  | nil => simp [setAssoc, lookupAssoc]
  | cons p rest ih =>
    rw [setAssoc]
    by_cases hk : p.1 = k
    · rw [if_pos hk, lookupAssoc, if_pos hk]
    · rw [if_neg hk, lookupAssoc, if_neg hk]
      exact ih

/-- Assigning a key leaves every other key's lookup unchanged. -/
theorem lookupAssoc_setAssoc_ne (l : List (String × JSValue)) (k k' : String)
    (v : JSValue) (h : k' ≠ k) :
    lookupAssoc (setAssoc l k v) k' = lookupAssoc l k' := by
  induction l with
  | nil =>
    simp only [setAssoc, lookupAssoc]
    rw [if_neg (fun hk => h hk.symm)]
  | cons p rest ih =>
    rw [setAssoc]
    by_cases hk : p.1 = k
    · rw [if_pos hk, lookupAssoc, lookupAssoc]
      have : ¬ p.1 = k' := by rw [hk]; exact fun hx => h hx.symm
      rw [if_neg this, if_neg this]
    · rw [if_neg hk, lookupAssoc, lookupAssoc]
      by_cases hk' : p.1 = k'
      · rw [if_pos hk', if_pos hk']
      · rw [if_neg hk', if_neg hk']
        exact ih

/-- Materialization with an already non-null body is skipped. -/
theorem parseRequestBody_nonNull_skip (ext : Externals) (req : Request)
    (h : nonNullJS req.body = true) :
    parseRequestBodyIfNecessary ext req = .ok req := by
  rw [parseRequestBodyIfNecessary.eq_def, if_pos h]

/-- Materialization only ever writes the `body` slot: headers, search params
and the raw stream of a successfully processed request are unchanged. -/
theorem parseRequestBodyIfNecessary_frame (ext : Externals) (req req1 : Request)
    (h : parseRequestBodyIfNecessary ext req = .ok req1) :
    req1.headers = req.headers ∧ req1.urlSearch = req.urlSearch ∧
      req1.chunks = req.chunks := by
  rw [parseRequestBodyIfNecessary.eq_def] at h
  split at h
  · cases h
    exact ⟨rfl, rfl, rfl⟩
  · split at h
    · cases h
      exact ⟨rfl, rfl, rfl⟩
    · split at h
      · cases h
      · split at h
        · split at h
          · cases h
          · split at h
            · cases h
              exact ⟨rfl, rfl, rfl⟩
            · cases h
        · split at h
          · split at h
            · cases h
            · cases h
              exact ⟨rfl, rfl, rfl⟩
          · cases h
            exact ⟨rfl, rfl, rfl⟩

/-- C9: on the success path, when the resolver returns a string, the
continuation is invoked with the body mapping holding that string under
`query` (a fresh `\x7b query \x7d` mapping being created when no body
mapping existed); no response is written, and nothing of the request other
than the body slot's `query` entry is mutated — headers, search params and
stream are identical and every other body key is carried over. -/
theorem middleware_success_injects_query
    (ext : Externals) (opts : ParsedOptions) (req req1 : Request) (q : String)
    (hmat : parseRequestBodyIfNecessary ext req = .ok req1)
    (hres : getPersistedQuery opts.queryIdKey opts.queryMap req1 opts.strict =
      .ok (some q)) :
    (persistedQueriesMiddleware ext (.ok opts) req).nextCalled = true ∧
    (persistedQueriesMiddleware ext (.ok opts) req).response = none ∧
    isObject (persistedQueriesMiddleware ext (.ok opts) req).request.body = true ∧
    jsGet (persistedQueriesMiddleware ext (.ok opts) req).request.body "query" =
      JSValue.vStr q ∧
    (persistedQueriesMiddleware ext (.ok opts) req).request.headers = req.headers ∧
    (persistedQueriesMiddleware ext (.ok opts) req).request.urlSearch = req.urlSearch ∧
    (persistedQueriesMiddleware ext (.ok opts) req).request.chunks = req.chunks ∧
    (isObject req1.body = false →
      (persistedQueriesMiddleware ext (.ok opts) req).request.body =
        JSValue.vObj [("query", JSValue.vStr q)] []) ∧
    (∀ own proto, req1.body = JSValue.vObj own proto →
      (persistedQueriesMiddleware ext (.ok opts) req).request.body =
        JSValue.vObj (setAssoc own "query" (JSValue.vStr q)) proto) := by
  have hframe := parseRequestBodyIfNecessary_frame ext req req1 hmat
  simp only [persistedQueriesMiddleware.eq_def, hmat, hres]
  refine ⟨by trivial, by trivial, ?_, ?_, hframe.1, hframe.2.1, hframe.2.2, ?_, ?_⟩
  · cases hb : req1.body <;> simp [injectQuery, jsSet, isObject, hb]
  · cases hb : req1.body <;>
      simp [injectQuery, jsSet, isObject, jsGet, lookupAssoc, hb,
        lookupAssoc_setAssoc_self]
  · intro hno
    rw [injectQuery, if_neg (by simp [hno])]
  · intro own proto hb
    rw [injectQuery, hb]
    simp [isObject, jsSet]

/-- Witness for C9: resolving id `greet` against a one-entry table on a GET
request with no body creates `\x7b query \x7d` and calls the continuation. -/
theorem middleware_success_injects_query_witness :
    (persistedQueriesMiddleware defaultExternals
      (.ok { queryIdKey := "queryId",
             queryMap := JSValue.vObj [("greet", JSValue.vStr "greet text")] [],
             strict := false })
      { headers := [], urlSearch := [("queryId", "greet")],
        body := JSValue.vUndefined, chunks := [] }).nextCalled = true ∧
    (persistedQueriesMiddleware defaultExternals
      (.ok { queryIdKey := "queryId",
             queryMap := JSValue.vObj [("greet", JSValue.vStr "greet text")] [],
             strict := false })
      { headers := [], urlSearch := [("queryId", "greet")],
        body := JSValue.vUndefined, chunks := [] }).response = none ∧
    (persistedQueriesMiddleware defaultExternals
      (.ok { queryIdKey := "queryId",
             queryMap := JSValue.vObj [("greet", JSValue.vStr "greet text")] [],
             strict := false })
      { headers := [], urlSearch := [("queryId", "greet")],
        body := JSValue.vUndefined, chunks := [] }).request.body =
      JSValue.vObj [("query", JSValue.vStr "greet text")] [] := by
  have h := middleware_success_injects_query defaultExternals
    { queryIdKey := "queryId",
      queryMap := JSValue.vObj [("greet", JSValue.vStr "greet text")] [],
      strict := false }
    { headers := [], urlSearch := [("queryId", "greet")],
      body := JSValue.vUndefined, chunks := [] }
    { headers := [], urlSearch := [("queryId", "greet")],
      body := JSValue.vUndefined, chunks := [] }
    "greet text" rfl rfl
  exact ⟨h.1, h.2.1, h.2.2.2.2.2.2.2.1 rfl⟩

/-- C10: in non-strict mode, when the body mapping already holds a `query`
entry and a valid query id still resolves to persisted text, the middleware
silently overwrites `body.query` with the persisted text; every other body
entry and the prototype are left unchanged, and the continuation runs. -/
theorem middleware_overwrites_body_query
    (ext : Externals) (opts : ParsedOptions)
    (own proto : List (String × JSValue)) (oldQuery : JSValue) (q : String)
    (req : Request)
    (hstrict : opts.strict = false)
    (hbody : req.body = JSValue.vObj own proto)
    (hold : lookupAssoc own "query" = some oldQuery)
    (hres : getPersistedQuery opts.queryIdKey opts.queryMap req false =
      .ok (some q)) :
    (persistedQueriesMiddleware ext (.ok opts) req).nextCalled = true ∧
    (persistedQueriesMiddleware ext (.ok opts) req).response = none ∧
    (persistedQueriesMiddleware ext (.ok opts) req).request.body =
      JSValue.vObj (setAssoc own "query" (JSValue.vStr q)) proto ∧
    lookupAssoc (setAssoc own "query" (JSValue.vStr q)) "query" =
      some (JSValue.vStr q) ∧
    (∀ k, k ≠ "query" →
      lookupAssoc (setAssoc own "query" (JSValue.vStr q)) k = lookupAssoc own k) := by
  have hmat : parseRequestBodyIfNecessary ext req = .ok req :=
    parseRequestBody_nonNull_skip ext req (by rw [hbody]; rfl)
  simp only [persistedQueriesMiddleware.eq_def, hmat, hstrict, hres]
  refine ⟨by trivial, by trivial, ?_, lookupAssoc_setAssoc_self own "query" _, ?_⟩
  · show injectQuery req.body q = _
    rw [injectQuery, hbody]
    simp [isObject, jsSet]
  · intro k hk
    exact lookupAssoc_setAssoc_ne own "query" k _ hk

/-- Witness for C10: a pre-parsed body carrying both raw `query` text and a
valid `queryId` has its `query` replaced by the persisted text while the
sibling `extra` entry is untouched. -/
theorem middleware_overwrites_body_query_witness :
    (persistedQueriesMiddleware defaultExternals
      (.ok { queryIdKey := "queryId",
             queryMap := JSValue.vObj [("greet", JSValue.vStr "persisted text")] [],
             strict := false })
      { headers := [], urlSearch := [],
        body := JSValue.vObj
          [("query", JSValue.vStr "client text"),
           ("queryId", JSValue.vStr "greet"),
           ("extra", JSValue.vNum 7)] [],
        chunks := [] }).request.body =
      JSValue.vObj
        [("query", JSValue.vStr "persisted text"),
         ("queryId", JSValue.vStr "greet"),
         ("extra", JSValue.vNum 7)] [] ∧
    (persistedQueriesMiddleware defaultExternals
      (.ok { queryIdKey := "queryId",
             queryMap := JSValue.vObj [("greet", JSValue.vStr "persisted text")] [],
             strict := false })
      { headers := [], urlSearch := [],
        body := JSValue.vObj
          [("query", JSValue.vStr "client text"),
           ("queryId", JSValue.vStr "greet"),
           ("extra", JSValue.vNum 7)] [],
        chunks := [] }).nextCalled = true := by
  have h := middleware_overwrites_body_query defaultExternals
    { queryIdKey := "queryId",
      queryMap := JSValue.vObj [("greet", JSValue.vStr "persisted text")] [],
      strict := false }
    [("query", JSValue.vStr "client text"),
     ("queryId", JSValue.vStr "greet"),
     ("extra", JSValue.vNum 7)] []
    (JSValue.vStr "client text") "persisted text"
    { headers := [], urlSearch := [],
      body := JSValue.vObj
        [("query", JSValue.vStr "client text"),
         ("queryId", JSValue.vStr "greet"),
         ("extra", JSValue.vNum 7)] [],
      chunks := [] }
    rfl rfl rfl rfl
  refine ⟨?_, h.1⟩
  rw [h.2.2.1]
  rfl
